import Mathlib

/-!
Shallow embedding of the construction-interception registry
(`src/src/ObjectFactory.ts`, class `ObjectFactory`) and proofs about it.

Modelling choices:
* JS object identities (constructor functions used as type keys, and
  arbitrary objects stored in the registry) are modelled as natural-number
  identity tokens (`Obj`).
* A JS `Map` is modelled as a function to `Option` (`JSMap`), with the
  `get` / `has` / `set` / `delete` operations used by the source; the
  distinction between an absent key and a key bound to an empty array is
  preserved, as the source relies on it.
* The host language's construction mechanism (`new ctor(...args)`) and the
  duck-typed capability check `typeof obj?.constructorCalledWith ===
  'function'` are parameters of the model (`ConstructionEnv`); a throwing
  constructor is an `Except.error` result.
* The returned closure of `create` is modelled as a state-passing function
  whose result records the produced value, the registry state after the
  call, and the list of `constructorCalledWith` hook invocations made.
-/

namespace SpecRec

/-- Identity token for a JS object (objects are compared by reference). -/
abbrev Obj := Nat

/-- JS runtime values passed as constructor arguments. -/
inductive JSValue : Type
  | str (s : String)
  | num (n : Int)
  | boolean (b : Bool)
  | objRef (o : Obj)
  | undef
  deriving DecidableEq

/-- The JS `typeof` operator, as used by `extractParameterInfo`. -/
def typeofJS : JSValue → String
  | .str _ => "string"
  | .num _ => "number"
  | .boolean _ => "boolean"
  | .objRef _ => "object"
  | .undef => "undefined"

/-- A JS `Map` modelled extensionally: each key is either absent (`none`)
or bound to a value (`some v`). -/
def JSMap (κ α : Type) := κ → Option α

/-- `Map.prototype.get`. -/
def mGet {κ α : Type} (m : JSMap κ α) (k : κ) : Option α := m k

/-- `Map.prototype.has`. -/
def mHas {κ α : Type} (m : JSMap κ α) (k : κ) : Bool := (m k).isSome

/-- `Map.prototype.set`. -/
def mSet {κ α : Type} [DecidableEq κ] (m : JSMap κ α) (k : κ) (v : α) :
    JSMap κ α :=
  fun q => if q = k then some v else m q

/-- `Map.prototype.delete`. -/
def mDelete {κ α : Type} [DecidableEq κ] (m : JSMap κ α) (k : κ) :
    JSMap κ α :=
  fun q => if q = k then none else m q

/-- `new Map()`. -/
def mEmpty {κ α : Type} : JSMap κ α := fun _ => none

/-- `ConstructorParameterInfo` (ObjectFactory.ts, lines 1-5). -/
structure ConstructorParameterInfo where
  index : Nat
  type : String
  value : JSValue
  deriving DecidableEq

/-- `ObjectFactory.extractParameterInfo` (lines 97-103):
`args.map((value, index) => ({ index, type: typeof value, value }))`. -/
def extractParameterInfo (args : List JSValue) : List ConstructorParameterInfo :=
  args.enum.map (fun p => ⟨p.1, typeofJS p.2, p.2⟩)

/-- The host environment seen by the registry: the real construction
procedure for each type key (`new ctor(...args)`, which may throw), and
the duck-typed check whether an instance exposes a callable
`constructorCalledWith` (`implementsConstructorTracking`, lines 93-95). -/
structure ConstructionEnv where
  construct : Nat → List JSValue → Except String Obj
  hasConstructorCalledWith : Obj → Bool

/-- The mutable state of one `ObjectFactory` instance (lines 14-18). -/
structure ObjectFactory where
  queuedObjects : JSMap Nat (List Obj)
  alwaysObjects : JSMap Nat Obj
  registeredObjects : JSMap String Obj
  registeredIds : JSMap Obj String
  autoIdCounter : Nat

/-- A freshly constructed `ObjectFactory`: all four maps empty, counter 1. -/
def ObjectFactory.init : ObjectFactory :=
  { queuedObjects := mEmpty
    alwaysObjects := mEmpty
    registeredObjects := mEmpty
    registeredIds := mEmpty
    autoIdCounter := 1 }

/-- Result of invoking the closure returned by `create(ctor)`: the value
produced (or the exception propagated from real construction), the
registry state afterwards, and the `constructorCalledWith` invocations
made (receiver paired with the descriptor list passed to it). -/
structure CreateResult where
  result : Except String Obj
  state : ObjectFactory
  hookCalls : List (Obj × List ConstructorParameterInfo)

/-- `ObjectFactory.create` (lines 20-39): the body of the returned
closure, executed when it is invoked with `args`. Checks the one-shot
queue (`queued && queued.length > 0`, then `queued.shift()`), then the
persistent table, then constructs for real and notifies the instance when
it implements the tracking capability. -/
def ObjectFactory.create (s : ObjectFactory) (env : ConstructionEnv)
    (ctor : Nat) (args : List JSValue) : CreateResult :=
  match mGet s.queuedObjects ctor with
  | some (first :: rest) =>
      { result := .ok first
        state := { s with queuedObjects := mSet s.queuedObjects ctor rest }
        hookCalls := [] }
  | _ =>
      match mGet s.alwaysObjects ctor with
      | some inst => { result := .ok inst, state := s, hookCalls := [] }
      | none =>
          match env.construct ctor args with
          | .error e => { result := .error e, state := s, hookCalls := [] }
          | .ok inst =>
              if env.hasConstructorCalledWith inst then
                { result := .ok inst
                  state := s
                  hookCalls := [(inst, extractParameterInfo args)] }
              else
                { result := .ok inst, state := s, hookCalls := [] }

/-- `ObjectFactory.setOne` (lines 41-46): ensure a queue exists for the
key, then push the instance at its end. -/
def ObjectFactory.setOne (s : ObjectFactory) (ctor : Nat) (inst : Obj) :
    ObjectFactory :=
  let q := if mHas s.queuedObjects ctor then s.queuedObjects
           else mSet s.queuedObjects ctor []
  { s with queuedObjects := mSet q ctor ((mGet q ctor).getD [] ++ [inst]) }

/-- `ObjectFactory.setAlways` (lines 48-50). -/
def ObjectFactory.setAlways (s : ObjectFactory) (ctor : Nat) (inst : Obj) :
    ObjectFactory :=
  { s with alwaysObjects := mSet s.alwaysObjects ctor inst }

/-- `ObjectFactory.clear` (lines 52-57): the optional parameter; a missing
or `undefined` argument fails the truthiness test and nothing happens. -/
def ObjectFactory.clear (s : ObjectFactory) (ctor : Option Nat) :
    ObjectFactory :=
  match ctor with
  | some c =>
      { s with queuedObjects := mDelete s.queuedObjects c
               alwaysObjects := mDelete s.alwaysObjects c }
  | none => s

/-- `ObjectFactory.clearAll` (lines 59-65). -/
def ObjectFactory.clearAll (_s : ObjectFactory) : ObjectFactory :=
  ObjectFactory.init

/-- JS truthiness of the optional `id` argument of `register`: `undefined`
and the empty string are falsy. -/
def idTruthy : Option String → Bool
  | none => false
  | some s => !(s == "")

/-- `ObjectFactory.register` (lines 67-83). The first line
`const objectId = id || auto_<counter++>` evaluates its right operand,
post-incrementing the counter, exactly when `id` is falsy, before the
already-registered check. Returns the produced id and the new state. -/
def ObjectFactory.register (s : ObjectFactory) (obj : Obj)
    (id : Option String) : String × ObjectFactory :=
  let objectId := if idTruthy id then id.getD ""
                  else "auto_" ++ toString s.autoIdCounter
  let s1 := if idTruthy id then s
            else { s with autoIdCounter := s.autoIdCounter + 1 }
  match mGet s1.registeredIds obj with
  | some existingId =>
      if idTruthy id ∧ existingId ≠ id.getD "" then
        (existingId,
          { s1 with
            registeredObjects :=
              mSet (mDelete s1.registeredObjects existingId) objectId obj
            registeredIds := mSet s1.registeredIds obj objectId })
      else
        (existingId, s1)
  | none =>
      (objectId,
        { s1 with
          registeredObjects := mSet s1.registeredObjects objectId obj
          registeredIds := mSet s1.registeredIds obj objectId })

/-- `ObjectFactory.getRegistered` (lines 85-87). -/
def ObjectFactory.getRegistered (s : ObjectFactory) (id : String) :
    Option Obj :=
  mGet s.registeredObjects id

/-- `ObjectFactory.getRegisteredId` (lines 89-91). -/
def ObjectFactory.getRegisteredId (s : ObjectFactory) (obj : Obj) :
    Option String :=
  mGet s.registeredIds obj

/-- States reachable from a fresh registry by any sequence of the
registry's own operations. -/
inductive Reachable : ObjectFactory → Prop
  | init : Reachable ObjectFactory.init
  | create (s : ObjectFactory) (env : ConstructionEnv) (ctor : Nat)
      (args : List JSValue) : Reachable s →
      Reachable (s.create env ctor args).state
  | setOne (s : ObjectFactory) (ctor : Nat) (inst : Obj) : Reachable s →
      Reachable (s.setOne ctor inst)
  | setAlways (s : ObjectFactory) (ctor : Nat) (inst : Obj) : Reachable s →
      Reachable (s.setAlways ctor inst)
  | clear (s : ObjectFactory) (ctor : Option Nat) : Reachable s →
      Reachable (s.clear ctor)
  | clearAll (s : ObjectFactory) : Reachable s → Reachable s.clearAll
  | register (s : ObjectFactory) (obj : Obj) (id : Option String) :
      Reachable s → Reachable (s.register obj id).2

/-- The label registry's claimed bidirectional invariant: the two maps
agree in both directions (every object-to-label entry is mirrored by a
label-to-object entry and vice versa). -/
def labelBijective (s : ObjectFactory) : Prop :=
  (∀ o L, mGet s.registeredIds o = some L →
    mGet s.registeredObjects L = some o) ∧
  (∀ L o, mGet s.registeredObjects L = some o →
    mGet s.registeredIds o = some L)

theorem mGet_mSet_self {κ α : Type} [DecidableEq κ] (m : JSMap κ α)
    (k : κ) (v : α) : mGet (mSet m k v) k = some v := by
  simp [mGet, mSet]

theorem mGet_mSet_ne {κ α : Type} [DecidableEq κ] (m : JSMap κ α)
    (k q : κ) (v : α) (h : q ≠ k) : mGet (mSet m k v) q = mGet m q := by
  simp [mGet, mSet, h]

theorem mGet_mDelete_self {κ α : Type} [DecidableEq κ] (m : JSMap κ α)
    (k : κ) : mGet (mDelete m k) k = none := by
  simp [mGet, mDelete]

theorem mGet_mDelete_ne {κ α : Type} [DecidableEq κ] (m : JSMap κ α)
    (k q : κ) (h : q ≠ k) : mGet (mDelete m k) q = mGet m q := by
  simp [mGet, mDelete, h]

theorem mHas_eq_isSome {κ α : Type} (m : JSMap κ α) (k : κ) :
    mHas m k = (mGet m k).isSome := rfl

theorem mSet_mSet {κ α : Type} [DecidableEq κ] (m : JSMap κ α) (k : κ)
    (v w : α) : mSet (mSet m k v) k w = mSet m k w := by
  funext q
  by_cases hq : q = k <;> simp [mSet, hq]

theorem setOne_queuedObjects (s : ObjectFactory) (T : Nat) (a : Obj) :
    (s.setOne T a).queuedObjects
      = mSet s.queuedObjects T ((mGet s.queuedObjects T).getD [] ++ [a]) := by
  unfold ObjectFactory.setOne
  cases h : mGet s.queuedObjects T with
  | none => simp [mHas_eq_isSome, h, mGet_mSet_self, mSet_mSet]
  | some l => simp [mHas_eq_isSome, h]

theorem setOne_alwaysObjects (s : ObjectFactory) (T : Nat) (a : Obj) :
    (s.setOne T a).alwaysObjects = s.alwaysObjects := rfl

theorem setOne_registeredObjects (s : ObjectFactory) (T : Nat) (a : Obj) :
    (s.setOne T a).registeredObjects = s.registeredObjects := rfl

theorem setOne_registeredIds (s : ObjectFactory) (T : Nat) (a : Obj) :
    (s.setOne T a).registeredIds = s.registeredIds := rfl

theorem setOne_autoIdCounter (s : ObjectFactory) (T : Nat) (a : Obj) :
    (s.setOne T a).autoIdCounter = s.autoIdCounter := rfl

theorem setAlways_queuedObjects (s : ObjectFactory) (T : Nat) (b : Obj) :
    (s.setAlways T b).queuedObjects = s.queuedObjects := rfl

theorem setAlways_alwaysObjects (s : ObjectFactory) (T : Nat) (b : Obj) :
    (s.setAlways T b).alwaysObjects = mSet s.alwaysObjects T b := rfl

theorem create_queued (s : ObjectFactory) (env : ConstructionEnv) (T : Nat)
    (args : List JSValue) (x : Obj) (q : List Obj)
    (h : mGet s.queuedObjects T = some (x :: q)) :
    s.create env T args
      = ⟨.ok x, { s with queuedObjects := mSet s.queuedObjects T q }, []⟩ := by
  unfold ObjectFactory.create
  rw [h]

theorem create_always (s : ObjectFactory) (env : ConstructionEnv) (T : Nat)
    (args : List JSValue) (b : Obj)
    (hq : mGet s.queuedObjects T = none ∨ mGet s.queuedObjects T = some [])
    (ha : mGet s.alwaysObjects T = some b) :
    s.create env T args = ⟨.ok b, s, []⟩ := by
  unfold ObjectFactory.create
  rcases hq with h | h <;> rw [h, ha]

theorem create_no_override (s : ObjectFactory) (env : ConstructionEnv)
    (T : Nat) (args : List JSValue)
    (hq : mGet s.queuedObjects T = none ∨ mGet s.queuedObjects T = some [])
    (ha : mGet s.alwaysObjects T = none) :
    s.create env T args
      = match env.construct T args with
        | .error e => ⟨.error e, s, []⟩
        | .ok inst =>
            if env.hasConstructorCalledWith inst then
              ⟨.ok inst, s, [(inst, extractParameterInfo args)]⟩
            else ⟨.ok inst, s, []⟩ := by
  unfold ObjectFactory.create
  rcases hq with h | h <;> rw [h, ha]

theorem create_result_no_override (s : ObjectFactory)
    (env : ConstructionEnv) (T : Nat) (args : List JSValue)
    (hq : mGet s.queuedObjects T = none ∨ mGet s.queuedObjects T = some [])
    (ha : mGet s.alwaysObjects T = none) :
    (s.create env T args).result = env.construct T args := by
  rw [create_no_override s env T args hq ha]
  cases hc : env.construct T args with
  | error e => simp
  | ok inst => by_cases hi : env.hasConstructorCalledWith inst <;> simp [hi]

/-- Shared helper: from a state whose one-shot queue for `T` is exactly
`[a]` and whose persistent table maps `T` to `b`, three successive
resolutions of `T` yield `a`, then `b`, then `b`. -/
theorem resolve_a_b_b (s0 : ObjectFactory) (env : ConstructionEnv)
    (T : Nat) (a b : Obj) (args1 args2 args3 : List JSValue)
    (h1 : mGet s0.queuedObjects T = some [a])
    (h2 : mGet s0.alwaysObjects T = some b) :
    (s0.create env T args1).result = .ok a
    ∧ ((s0.create env T args1).state.create env T args2).result = .ok b
    ∧ (((s0.create env T args1).state.create env T args2).state.create env
        T args3).result = .ok b := by
  have e1 := create_queued s0 env T args1 a [] h1
  have hq1 : mGet ((s0.create env T args1).state).queuedObjects T
      = some [] := by
    rw [e1]
    exact mGet_mSet_self _ _ _
  have ha1 : mGet ((s0.create env T args1).state).alwaysObjects T
      = some b := by
    rw [e1]
    exact h2
  have e2 := create_always ((s0.create env T args1).state) env T args2 b
    (Or.inr hq1) ha1
  refine ⟨by rw [e1], by rw [e2], ?_⟩
  rw [e2]
  show (((s0.create env T args1).state).create env T args3).result = .ok b
  rw [create_always _ env T args3 b (Or.inr hq1) ha1]

theorem mGet_mEmpty {κ α : Type} (k : κ) :
    mGet (mEmpty : JSMap κ α) k = none := rfl

theorem init_queuedObjects :
    ObjectFactory.init.queuedObjects = (mEmpty : JSMap Nat (List Obj)) := rfl

theorem init_alwaysObjects :
    ObjectFactory.init.alwaysObjects = (mEmpty : JSMap Nat Obj) := rfl

/-- C1: bind(T)'s resolution follows the three-tier precedence (one-shot
queue, then persistent override, then real construction) regardless of
setup order: in any state with no one-shot instances pending for T, after
queueOnce(T, a) and setPersistent(T, b) — called in either order — the
first resolution returns a, the second returns b, and a third returns b. -/
theorem C1_three_tier_precedence (s : ObjectFactory)
    (env : ConstructionEnv) (T : Nat) (a b : Obj)
    (args1 args2 args3 : List JSValue)
    (hq : mGet s.queuedObjects T = none
      ∨ mGet s.queuedObjects T = some []) :
    (((((s.setOne T a).setAlways T b).create env T args1).result = .ok a
      ∧ ((((s.setOne T a).setAlways T b).create env T args1).state.create
          env T args2).result = .ok b
      ∧ (((((s.setOne T a).setAlways T b).create env T args1).state.create
          env T args2).state.create env T args3).result = .ok b)
    ∧ ((((s.setAlways T b).setOne T a).create env T args1).result = .ok a
      ∧ ((((s.setAlways T b).setOne T a).create env T args1).state.create
          env T args2).result = .ok b
      ∧ (((((s.setAlways T b).setOne T a).create env T args1).state.create
          env T args2).state.create env T args3).result = .ok b)) := by
  have hg : (mGet s.queuedObjects T).getD [] = [] := by
    rcases hq with h | h <;> simp [h]
  constructor
  · apply resolve_a_b_b
    · rw [setAlways_queuedObjects, setOne_queuedObjects, hg]
      exact mGet_mSet_self _ _ _
    · rw [setAlways_alwaysObjects]
      exact mGet_mSet_self _ _ _
  · apply resolve_a_b_b
    · rw [setOne_queuedObjects, setAlways_queuedObjects, hg]
      exact mGet_mSet_self _ _ _
    · rw [setOne_alwaysObjects, setAlways_alwaysObjects]
      exact mGet_mSet_self _ _ _

/-- A concrete environment for witnesses: every real construction
succeeds with instance 99, and no instance implements the tracking
capability. -/
def plainEnv : ConstructionEnv :=
  { construct := fun _ _ => .ok 99, hasConstructorCalledWith := fun _ => false }

/-- C1 witness: the precedence scenario at a concrete instantiation (fresh
registry, type key 0, queued instance 1, persistent instance 2). -/
theorem C1_three_tier_precedence_witness :
    (mGet ObjectFactory.init.queuedObjects 0 = none
      ∨ mGet ObjectFactory.init.queuedObjects 0 = some [])
    ∧ (((((ObjectFactory.init.setOne 0 1).setAlways 0 2).create plainEnv
          0 []).result = .ok 1
      ∧ ((((ObjectFactory.init.setOne 0 1).setAlways 0 2).create plainEnv
          0 []).state.create plainEnv 0 []).result = .ok 2
      ∧ (((((ObjectFactory.init.setOne 0 1).setAlways 0 2).create plainEnv
          0 []).state.create plainEnv 0 []).state.create plainEnv
          0 []).result = .ok 2)
    ∧ ((((ObjectFactory.init.setAlways 0 2).setOne 0 1).create plainEnv
          0 []).result = .ok 1
      ∧ ((((ObjectFactory.init.setAlways 0 2).setOne 0 1).create plainEnv
          0 []).state.create plainEnv 0 []).result = .ok 2
      ∧ (((((ObjectFactory.init.setAlways 0 2).setOne 0 1).create plainEnv
          0 []).state.create plainEnv 0 []).state.create plainEnv
          0 []).result = .ok 2)) :=
  ⟨Or.inl rfl,
    C1_three_tier_precedence ObjectFactory.init plainEnv 0 1 2 [] [] []
      (Or.inl rfl)⟩

/-- C2: queued one-shot instances are consumed destructively in FIFO
order: on an otherwise empty registry, after queueOnce(T, a) then
queueOnce(T, b), the first resolution returns a (leaving only b queued),
the second returns b (leaving the queue empty), and the third performs
real construction. -/
theorem C2_fifo_destructive (env : ConstructionEnv) (T : Nat) (a b : Obj)
    (args1 args2 args3 : List JSValue) :
    ((((ObjectFactory.init.setOne T a).setOne T b).create env T
        args1).result = .ok a
    ∧ mGet ((((ObjectFactory.init.setOne T a).setOne T b).create env T
        args1).state).queuedObjects T = some [b]
    ∧ (((((ObjectFactory.init.setOne T a).setOne T b).create env T
        args1).state).create env T args2).result = .ok b
    ∧ mGet ((((((ObjectFactory.init.setOne T a).setOne T b).create env T
        args1).state).create env T args2).state).queuedObjects T = some []
    ∧ ((((((ObjectFactory.init.setOne T a).setOne T b).create env T
        args1).state).create env T args2).state.create env T
        args3).result = env.construct T args3) := by
  have h0 : mGet ((ObjectFactory.init.setOne T a).setOne T
      b).queuedObjects T = some [a, b] := by
    rw [setOne_queuedObjects, setOne_queuedObjects, init_queuedObjects,
      mGet_mEmpty]
    simp [mGet_mSet_self]
  have e1 := create_queued ((ObjectFactory.init.setOne T a).setOne T b)
    env T args1 a [b] h0
  have hq1 : mGet ((((ObjectFactory.init.setOne T a).setOne T b).create
      env T args1).state).queuedObjects T = some [b] := by
    rw [e1]
    exact mGet_mSet_self _ _ _
  have e2 := create_queued _ env T args2 b [] hq1
  have hq2 : mGet ((((((ObjectFactory.init.setOne T a).setOne T b).create
      env T args1).state).create env T args2).state).queuedObjects T
      = some [] := by
    rw [e2]
    exact mGet_mSet_self _ _ _
  have ha2 : mGet ((((((ObjectFactory.init.setOne T a).setOne T b).create
      env T args1).state).create env T args2).state).alwaysObjects T
      = none := by
    rw [e2, e1]
    rfl
  exact ⟨by rw [e1], hq1, by rw [e2], hq2,
    create_result_no_override _ env T args3 (Or.inr hq2) ha2⟩

theorem mDelete_absent {κ α : Type} [DecidableEq κ] (m : JSMap κ α)
    (k : κ) (h : mGet m k = none) : mDelete m k = m := by
  funext q
  by_cases hq : q = k
  · subst hq
    simp only [mDelete, if_pos rfl]
    exact h.symm
  · simp [mDelete, hq]

/-- C6: when no override applies and real construction succeeds, the
constructorCalledWith hook is invoked exactly once with one descriptor
per argument in order (position, runtime type name, value) when the
instance exposes the capability, and not at all otherwise; the hook is
never invoked when a queued or persistent override satisfies the
resolution. -/
theorem C6_construction_notification (s : ObjectFactory)
    (env : ConstructionEnv) (T : Nat) (args : List JSValue) (inst : Obj)
    (hq : mGet s.queuedObjects T = none
      ∨ mGet s.queuedObjects T = some [])
    (ha : mGet s.alwaysObjects T = none)
    (hc : env.construct T args = .ok inst) :
    (s.create env T args).result = .ok inst
    ∧ (s.create env T args).hookCalls
        = (if env.hasConstructorCalledWith inst then
            [(inst, extractParameterInfo args)]
          else [])
    ∧ (∀ i : Nat, (extractParameterInfo args)[i]?
        = args[i]?.map (fun v => ⟨i, typeofJS v, v⟩))
    ∧ (∀ (s' : ObjectFactory) (T' : Nat) (argsx : List JSValue) (x : Obj)
        (q : List Obj), mGet s'.queuedObjects T' = some (x :: q) →
        (s'.create env T' argsx).hookCalls = [])
    ∧ (∀ (s' : ObjectFactory) (T' : Nat) (argsx : List JSValue) (x : Obj),
        (mGet s'.queuedObjects T' = none
          ∨ mGet s'.queuedObjects T' = some []) →
        mGet s'.alwaysObjects T' = some x →
        (s'.create env T' argsx).hookCalls = []) := by
  have he := create_no_override s env T args hq ha
  refine ⟨?_, ?_, ?_, ?_, ?_⟩
  · rw [he, hc]
    by_cases hi : env.hasConstructorCalledWith inst <;> simp [hi]
  · rw [he, hc]
    by_cases hi : env.hasConstructorCalledWith inst <;> simp [hi]
  · intro i
    simp [extractParameterInfo, List.getElem?_map, List.getElem?_enum,
      Option.map_map]
    rfl
  · intro s' T' argsx x q h
    rw [create_queued s' env T' argsx x q h]
  · intro s' T' argsx x hq' ha'
    rw [create_always s' env T' argsx x hq' ha']

/-- An environment whose real constructions succeed with an instance
implementing the tracking capability. -/
def trackEnv : ConstructionEnv :=
  { construct := fun _ _ => .ok 77, hasConstructorCalledWith := fun _ => true }

/-- C6 witness: constructing with arguments ("x", 8080) on a fresh
registry notifies instance 77 with the two expected descriptors. -/
theorem C6_construction_notification_witness :
    (mGet ObjectFactory.init.queuedObjects 0 = none
      ∨ mGet ObjectFactory.init.queuedObjects 0 = some [])
    ∧ mGet ObjectFactory.init.alwaysObjects 0 = none
    ∧ trackEnv.construct 0 [JSValue.str "x", JSValue.num 8080] = .ok 77
    ∧ (ObjectFactory.init.create trackEnv 0
        [JSValue.str "x", JSValue.num 8080]).hookCalls
      = [(77, [⟨0, "string", JSValue.str "x"⟩,
               ⟨1, "number", JSValue.num 8080⟩])] :=
  ⟨Or.inl rfl, rfl, rfl,
    (C6_construction_notification ObjectFactory.init trackEnv 0
      [JSValue.str "x", JSValue.num 8080] 77 (Or.inl rfl) rfl rfl).2.1⟩

/-- C7: clearAll resets the registry completely: every type key's queued
and persistent overrides are gone, both directions of the label registry
are empty, and the auto-label counter is back at 1 so the next
auto-assigned label is auto_1 again. -/
theorem C7_clearAll_full_reset (s : ObjectFactory) :
    (∀ T, mGet s.clearAll.queuedObjects T = none
      ∧ mGet s.clearAll.alwaysObjects T = none)
    ∧ (∀ L, mGet s.clearAll.registeredObjects L = none)
    ∧ (∀ o, mGet s.clearAll.registeredIds o = none)
    ∧ s.clearAll.autoIdCounter = 1
    ∧ (∀ o, (s.clearAll.register o none).1 = "auto_1") := by
  refine ⟨fun _ => ⟨rfl, rfl⟩, fun _ => rfl, fun _ => rfl, rfl, fun o => ?_⟩
  show (ObjectFactory.init.register o none).1 = "auto_1"
  simp only [ObjectFactory.register, ObjectFactory.init, idTruthy, mGet,
    mEmpty]
  rfl

theorem create_error_no_override (s : ObjectFactory)
    (env : ConstructionEnv) (T : Nat) (args : List JSValue) (e : String)
    (hq : mGet s.queuedObjects T = none
      ∨ mGet s.queuedObjects T = some [])
    (h : (s.create env T args).result = .error e) :
    env.construct T args = .error e
    ∧ (s.create env T args).state = s
    ∧ (s.create env T args).hookCalls = [] := by
  cases haa : mGet s.alwaysObjects T with
  | some b =>
      rw [create_always s env T args b hq haa] at h
      exact absurd h (by simp)
  | none =>
      have he := create_no_override s env T args hq haa
      rw [he] at h
      cases hc : env.construct T args with
      | ok inst =>
          rw [hc] at h
          by_cases hi : env.hasConstructorCalledWith inst <;>
            simp [hi] at h
      | error e0 =>
          rw [hc] at h
          simp at h
          subst h
          rw [he, hc]
          exact ⟨rfl, rfl, rfl⟩

/-- C8: if the underlying real-construction call throws, the exception
propagates unmodified to the caller and the registry state is exactly as
it was before the call (and no hook was invoked). -/
theorem C8_atomic_on_construction_throw (s : ObjectFactory)
    (env : ConstructionEnv) (T : Nat) (args : List JSValue) (e : String)
    (h : (s.create env T args).result = .error e) :
    env.construct T args = .error e
    ∧ (s.create env T args).state = s
    ∧ (s.create env T args).hookCalls = [] := by
  cases hqq : mGet s.queuedObjects T with
  | none => exact create_error_no_override s env T args e (Or.inl hqq) h
  | some l =>
      cases l with
      | nil => exact create_error_no_override s env T args e (Or.inr hqq) h
      | cons x q =>
          rw [create_queued s env T args x q hqq] at h
          exact absurd h (by simp)

/-- An environment whose real constructions always throw. -/
def throwEnv : ConstructionEnv :=
  { construct := fun _ _ => .error "ctor failed"
    hasConstructorCalledWith := fun _ => false }

/-- C8 witness: a throwing construction on a fresh registry propagates
the error and leaves the state untouched. -/
theorem C8_atomic_on_construction_throw_witness :
    (ObjectFactory.init.create throwEnv 0 []).result = .error "ctor failed"
    ∧ throwEnv.construct 0 [] = .error "ctor failed"
    ∧ (ObjectFactory.init.create throwEnv 0 []).state = ObjectFactory.init
    ∧ (ObjectFactory.init.create throwEnv 0 []).hookCalls = [] :=
  ⟨rfl, C8_atomic_on_construction_throw ObjectFactory.init throwEnv 0 []
    "ctor failed" rfl⟩

/-- C9: clearType(T) removes T's queued and persistent overrides, is a
no-op when neither is present, and leaves every other type key's
overrides, both directions of the label registry, and the auto-label
counter unchanged. -/
theorem C9_clearType_scoped (s : ObjectFactory) (T : Nat) :
    mGet (s.clear (some T)).queuedObjects T = none
    ∧ mGet (s.clear (some T)).alwaysObjects T = none
    ∧ (∀ U, U ≠ T →
        mGet (s.clear (some T)).queuedObjects U = mGet s.queuedObjects U
        ∧ mGet (s.clear (some T)).alwaysObjects U
            = mGet s.alwaysObjects U)
    ∧ (s.clear (some T)).registeredObjects = s.registeredObjects
    ∧ (s.clear (some T)).registeredIds = s.registeredIds
    ∧ (s.clear (some T)).autoIdCounter = s.autoIdCounter
    ∧ (mGet s.queuedObjects T = none → mGet s.alwaysObjects T = none →
        s.clear (some T) = s) := by
  refine ⟨mGet_mDelete_self _ _, mGet_mDelete_self _ _, ?_, rfl, rfl, rfl,
    ?_⟩
  · intro U hU
    exact ⟨mGet_mDelete_ne _ _ _ hU, mGet_mDelete_ne _ _ _ hU⟩
  · intro h1 h2
    show ({ s with queuedObjects := mDelete s.queuedObjects T
                   alwaysObjects := mDelete s.alwaysObjects T }
      : ObjectFactory) = s
    rw [mDelete_absent _ _ h1, mDelete_absent _ _ h2]

/-- C9 witness: with a one-shot queued for key 0 and a persistent
override on key 1, clearing key 0 empties key 0's queue and leaves key
1's persistent override untouched. -/
theorem C9_clearType_scoped_witness :
    mGet (((ObjectFactory.init.setOne 0 1).setAlways 1 2).clear
      (some 0)).queuedObjects 0 = none
    ∧ (1 : Nat) ≠ 0
    ∧ mGet (((ObjectFactory.init.setOne 0 1).setAlways 1 2).clear
        (some 0)).alwaysObjects 1
      = mGet ((ObjectFactory.init.setOne 0 1).setAlways 1 2).alwaysObjects
          1 :=
  ⟨(C9_clearType_scoped ((ObjectFactory.init.setOne 0 1).setAlways 1 2)
      0).1,
    by decide,
    ((C9_clearType_scoped ((ObjectFactory.init.setOne 0 1).setAlways 1 2)
      0).2.2.1 1 (by decide)).2⟩

/-- C10: clear() with the optional type-key argument omitted or undefined
is a complete no-op: the returned state is the input state, every table
and the counter included; it does not behave like clearAll. -/
theorem C10_clear_without_key_noop (s : ObjectFactory) :
    s.clear none = s := rfl

theorem register_fresh_auto (s : ObjectFactory) (o : Obj)
    (h : mGet s.registeredIds o = none) :
    s.register o none
      = ("auto_" ++ toString s.autoIdCounter,
        { s with
          registeredObjects := mSet s.registeredObjects
            ("auto_" ++ toString s.autoIdCounter) o
          registeredIds := mSet s.registeredIds o
            ("auto_" ++ toString s.autoIdCounter)
          autoIdCounter := s.autoIdCounter + 1 }) := by
  unfold ObjectFactory.register
  simp [idTruthy, h]

theorem register_existing_no_label (s : ObjectFactory) (o : Obj)
    (L : String) (h : mGet s.registeredIds o = some L) :
    s.register o none = (L, { s with autoIdCounter := s.autoIdCounter + 1 }) := by
  unfold ObjectFactory.register
  simp [idTruthy, h]

theorem register_relabel (s : ObjectFactory) (o : Obj) (L M : String)
    (h : mGet s.registeredIds o = some L) (hM : M ≠ "") (hne : M ≠ L) :
    s.register o (some M)
      = (L, { s with
          registeredObjects := mSet (mDelete s.registeredObjects L) M o
          registeredIds := mSet s.registeredIds o M }) := by
  unfold ObjectFactory.register
  simp [idTruthy, h, hM, Ne.symm hne]

/-- C5: re-labeling an object registered under L with a different
(non-empty) label M returns the old label L to the caller while the
internal state moves to M: the L entry of the label-to-object map is
removed, an M entry pointing at the object is inserted, the
object-to-label entry is repointed to M, so lookupLabelOf yields M and
lookupByLabel(L) yields the absent sentinel. -/
theorem C5_relabel_returns_old_label (s : ObjectFactory) (o : Obj)
    (L M : String) (h : mGet s.registeredIds o = some L)
    (hM : M ≠ "") (hne : M ≠ L) :
    (s.register o (some M)).1 = L
    ∧ mGet (s.register o (some M)).2.registeredIds o = some M
    ∧ mGet (s.register o (some M)).2.registeredObjects M = some o
    ∧ mGet (s.register o (some M)).2.registeredObjects L = none
    ∧ (s.register o (some M)).2.getRegisteredId o = some M
    ∧ (s.register o (some M)).2.getRegistered L = none := by
  have hred := register_relabel s o L M h hM hne
  rw [hred]
  refine ⟨rfl, mGet_mSet_self _ _ _, mGet_mSet_self _ _ _, ?_,
    mGet_mSet_self _ _ _, ?_⟩ <;>
  · show mGet (mSet (mDelete s.registeredObjects L) M o) L = none
    rw [mGet_mSet_ne _ _ _ _ (Ne.symm hne)]
    exact mGet_mDelete_self _ _

/-- C5 witness: object 5 registered as "old" then re-labeled "new"
returns "old" while the registry moves to "new". -/
theorem C5_relabel_returns_old_label_witness :
    mGet (ObjectFactory.init.register 5 (some "old")).2.registeredIds 5
      = some "old"
    ∧ "new" ≠ ""
    ∧ "new" ≠ "old"
    ∧ (((ObjectFactory.init.register 5 (some "old")).2.register 5
        (some "new")).1 = "old"
      ∧ mGet ((ObjectFactory.init.register 5 (some "old")).2.register 5
          (some "new")).2.registeredIds 5 = some "new"
      ∧ mGet ((ObjectFactory.init.register 5 (some "old")).2.register 5
          (some "new")).2.registeredObjects "new" = some 5
      ∧ mGet ((ObjectFactory.init.register 5 (some "old")).2.register 5
          (some "new")).2.registeredObjects "old" = none
      ∧ ((ObjectFactory.init.register 5 (some "old")).2.register 5
          (some "new")).2.getRegisteredId 5 = some "new"
      ∧ ((ObjectFactory.init.register 5 (some "old")).2.register 5
          (some "new")).2.getRegistered "old" = none) :=
  ⟨by decide, by decide, by decide,
    C5_relabel_returns_old_label (ObjectFactory.init.register 5
      (some "old")).2 5 "old" "new" (by decide) (by decide) (by decide)⟩

/-- C4 counterexample: from a fresh registry, registering object 1 with
no label and then registering it again does advance the auto-label
counter (2 to 3), contradicting the claim; a subsequently registered
fresh object gets auto_3, not auto_2 (while the repeated call does
return the same label auto_1). -/
theorem C4_counter_advance_counterexample :
    ((ObjectFactory.init.register 1 none).2.register 1
        none).2.autoIdCounter
      ≠ (ObjectFactory.init.register 1 none).2.autoIdCounter
    ∧ ((ObjectFactory.init.register 1 none).2.register 1 none).1
      = (ObjectFactory.init.register 1 none).1
    ∧ (((ObjectFactory.init.register 1 none).2.register 1
        none).2.register 2 none).1 = "auto_3" := by
  refine ⟨by decide, by decide, by decide⟩

/-- C4 amended: labelObject with no explicit label returns the same label
on repeated calls for the same object, but the auto-label counter
advances on every no-label call, including calls on already-registered
objects (the generated label is discarded); two distinct fresh objects
registered consecutively from a fresh registry still receive auto_1 then
auto_2. -/
theorem C4_label_identity_amended (s : ObjectFactory) (o o1 o2 : Obj)
    (L : String) (h : mGet s.registeredIds o = some L) (hne : o1 ≠ o2) :
    (s.register o none).1 = L
    ∧ ((s.register o none).2.register o none).1 = L
    ∧ (s.register o none).2.autoIdCounter = s.autoIdCounter + 1
    ∧ (ObjectFactory.init.register o1 none).1 = "auto_1"
    ∧ ((ObjectFactory.init.register o1 none).2.register o2 none).1
      = "auto_2" := by
  have e1 := register_existing_no_label s o L h
  have h2 : mGet (s.register o none).2.registeredIds o = some L := by
    rw [e1]
    exact h
  have ei1 := register_fresh_auto ObjectFactory.init o1 rfl
  have hi2 : mGet (ObjectFactory.init.register o1
      none).2.registeredIds o2 = none := by
    rw [ei1]
    rw [mGet_mSet_ne _ _ _ _ (Ne.symm hne)]
    rfl
  have ei2 := register_fresh_auto (ObjectFactory.init.register o1 none).2
    o2 hi2
  refine ⟨by rw [e1], by rw [register_existing_no_label _ o L h2],
    by rw [e1], ?_, ?_⟩
  · rw [ei1]
    show "auto_" ++ toString (1 : Nat) = "auto_1"
    rfl
  · rw [ei2, ei1]
    show "auto_" ++ toString ((1 : Nat) + 1) = "auto_2"
    rfl

/-- C4 amended witness: object 7 registered as "lbl", then re-registered
twice without a label; two fresh objects from a fresh registry. -/
theorem C4_label_identity_amended_witness :
    mGet (ObjectFactory.init.register 7 (some "lbl")).2.registeredIds 7
      = some "lbl"
    ∧ (1 : Obj) ≠ 2
    ∧ (((ObjectFactory.init.register 7 (some "lbl")).2.register 7
          none).1 = "lbl"
      ∧ ((((ObjectFactory.init.register 7 (some "lbl")).2.register 7
          none).2.register 7 none)).1 = "lbl"
      ∧ ((ObjectFactory.init.register 7 (some "lbl")).2.register 7
          none).2.autoIdCounter
        = (ObjectFactory.init.register 7 (some "lbl")).2.autoIdCounter + 1
      ∧ (ObjectFactory.init.register 1 none).1 = "auto_1"
      ∧ ((ObjectFactory.init.register 1 none).2.register 2 none).1
        = "auto_2") :=
  ⟨by decide, by decide,
    C4_label_identity_amended (ObjectFactory.init.register 7
      (some "lbl")).2 7 1 2 "lbl" (by decide) (by decide)⟩

/-- The half of the claimed label invariant that does hold on all
reachable states: every label-to-object entry is mirrored by the
object-to-label map. -/
def regInv (s : ObjectFactory) : Prop :=
  ∀ L o, mGet s.registeredObjects L = some o →
    mGet s.registeredIds o = some L

theorem clear_registeredObjects (s : ObjectFactory) (c : Option Nat) :
    (s.clear c).registeredObjects = s.registeredObjects := by
  cases c <;> rfl

theorem clear_registeredIds (s : ObjectFactory) (c : Option Nat) :
    (s.clear c).registeredIds = s.registeredIds := by
  cases c <;> rfl

theorem create_registered_frame_no_queue (s : ObjectFactory)
    (env : ConstructionEnv) (ctor : Nat) (args : List JSValue)
    (hq : mGet s.queuedObjects ctor = none
      ∨ mGet s.queuedObjects ctor = some []) :
    (s.create env ctor args).state.registeredObjects = s.registeredObjects
    ∧ (s.create env ctor args).state.registeredIds = s.registeredIds := by
  cases ha : mGet s.alwaysObjects ctor with
  | some b =>
      rw [create_always s env ctor args b hq ha]
      exact ⟨rfl, rfl⟩
  | none =>
      rw [create_no_override s env ctor args hq ha]
      cases hc : env.construct ctor args with
      | error e => exact ⟨rfl, rfl⟩
      | ok inst =>
          by_cases hi : env.hasConstructorCalledWith inst
          · simp [hi]
          · simp [hi]

theorem create_registered_frame (s : ObjectFactory)
    (env : ConstructionEnv) (ctor : Nat) (args : List JSValue) :
    (s.create env ctor args).state.registeredObjects = s.registeredObjects
    ∧ (s.create env ctor args).state.registeredIds = s.registeredIds := by
  cases hq : mGet s.queuedObjects ctor with
  | none =>
      exact create_registered_frame_no_queue s env ctor args (Or.inl hq)
  | some l =>
      cases l with
      | nil =>
          exact create_registered_frame_no_queue s env ctor args
            (Or.inr hq)
      | cons x rest =>
          rw [create_queued s env ctor args x rest hq]
          exact ⟨rfl, rfl⟩

theorem regInv_insert_fresh (ro : JSMap String Obj)
    (ids : JSMap Obj String) (o : Obj) (nid : String)
    (IH : ∀ L o', mGet ro L = some o' → mGet ids o' = some L)
    (hm : mGet ids o = none) :
    ∀ L o', mGet (mSet ro nid o) L = some o' →
      mGet (mSet ids o nid) o' = some L := by
  intro L o' hL
  by_cases hLn : L = nid
  · subst hLn
    rw [mGet_mSet_self] at hL
    injection hL with h1
    subst h1
    exact mGet_mSet_self _ _ _
  · rw [mGet_mSet_ne _ _ _ _ hLn] at hL
    have hIH := IH L o' hL
    by_cases ho : o' = o
    · subst ho
      rw [hm] at hIH
      cases hIH
    · rw [mGet_mSet_ne _ _ _ _ ho]
      exact hIH

theorem regInv_relabel (ro : JSMap String Obj) (ids : JSMap Obj String)
    (o : Obj) (E nid : String)
    (IH : ∀ L o', mGet ro L = some o' → mGet ids o' = some L)
    (hm : mGet ids o = some E) (hne : E ≠ nid) :
    ∀ L o', mGet (mSet (mDelete ro E) nid o) L = some o' →
      mGet (mSet ids o nid) o' = some L := by
  intro L o' hL
  by_cases hLn : L = nid
  · subst hLn
    rw [mGet_mSet_self] at hL
    injection hL with h1
    subst h1
    exact mGet_mSet_self _ _ _
  · rw [mGet_mSet_ne _ _ _ _ hLn] at hL
    by_cases hLE : L = E
    · subst hLE
      rw [mGet_mDelete_self] at hL
      cases hL
    · rw [mGet_mDelete_ne _ _ _ hLE] at hL
      have hIH := IH L o' hL
      by_cases ho : o' = o
      · subst ho
        rw [hm] at hIH
        injection hIH with h2
        exact absurd h2.symm hLE
      · rw [mGet_mSet_ne _ _ _ _ ho]
        exact hIH

theorem regInv_register (s : ObjectFactory) (o : Obj) (id : Option String)
    (IH : regInv s) : regInv (s.register o id).2 := by
  by_cases hid : idTruthy id = true
  · cases hm : mGet s.registeredIds o with
    | some E =>
        by_cases hEq : E = (id.getD "" : String)
        · have hred : (s.register o id).2 = s := by
            unfold ObjectFactory.register
            simp [hid, hm, hEq]
          rw [hred]
          exact IH
        · have hred : (s.register o id).2
              = { s with
                  registeredObjects :=
                    mSet (mDelete s.registeredObjects E) (id.getD "") o
                  registeredIds := mSet s.registeredIds o (id.getD "") } := by
            unfold ObjectFactory.register
            simp [hid, hm, hEq]
          rw [hred]
          exact regInv_relabel s.registeredObjects s.registeredIds o E
            (id.getD "") IH hm hEq
    | none =>
        have hred : (s.register o id).2
            = { s with
                registeredObjects := mSet s.registeredObjects (id.getD "") o
                registeredIds := mSet s.registeredIds o (id.getD "") } := by
          unfold ObjectFactory.register
          simp [hid, hm]
        rw [hred]
        exact regInv_insert_fresh s.registeredObjects s.registeredIds o
          (id.getD "") IH hm
  · cases hm : mGet s.registeredIds o with
    | some E =>
        have hred : (s.register o id).2
            = { s with autoIdCounter := s.autoIdCounter + 1 } := by
          unfold ObjectFactory.register
          simp [hid, hm]
        rw [hred]
        exact IH
    | none =>
        have hred : (s.register o id).2
            = { s with
                registeredObjects := mSet s.registeredObjects
                  ("auto_" ++ toString s.autoIdCounter) o
                registeredIds := mSet s.registeredIds o
                  ("auto_" ++ toString s.autoIdCounter)
                autoIdCounter := s.autoIdCounter + 1 } := by
          unfold ObjectFactory.register
          simp [hid, hm]
        rw [hred]
        exact regInv_insert_fresh s.registeredObjects s.registeredIds o
          ("auto_" ++ toString s.autoIdCounter) IH hm

theorem reachable_regInv (s : ObjectFactory) (h : Reachable s) :
    regInv s := by
  induction h with
  | init => exact fun L o hL => Option.noConfusion hL
  | create s env ctor args _ IH =>
      intro L o hL
      rw [(create_registered_frame s env ctor args).2]
      rw [(create_registered_frame s env ctor args).1] at hL
      exact IH L o hL
  | setOne s ctor inst _ IH => exact fun L o hL => IH L o hL
  | setAlways s ctor inst _ IH => exact fun L o hL => IH L o hL
  | clear s c _ IH =>
      intro L o hL
      rw [clear_registeredIds]
      rw [clear_registeredObjects] at hL
      exact IH L o hL
  | clearAll s _ _ => exact fun L o hL => Option.noConfusion hL
  | register s o id _ IH => exact regInv_register s o id IH

/-- A reachable state refuting the bidirectional label invariant:
register object 1 as "x", then object 2 as "x". -/
def badState : ObjectFactory :=
  ((ObjectFactory.init.register 1 (some "x")).2.register 2 (some "x")).2

/-- C3 counterexample: after registering object 1 under label "x" and
then object 2 under the same label "x", the object-to-label map still
says object 1 has label "x" while the label-to-object map says "x" maps
to object 2 — the two maps disagree, so the claimed bidirectional
invariant fails on a reachable state. -/
theorem C3_label_invariant_counterexample :
    Reachable badState
    ∧ mGet badState.registeredIds 1 = some "x"
    ∧ mGet badState.registeredObjects "x" = some 2
    ∧ ¬ labelBijective badState := by
  refine ⟨Reachable.register _ 2 (some "x")
    (Reachable.register _ 1 (some "x") Reachable.init), by decide,
    by decide, ?_⟩
  intro hb
  have h1 := hb.1 1 "x" (by decide)
  rw [show mGet badState.registeredObjects "x" = some 2 from by decide]
    at h1
  exact absurd h1 (by decide)

/-- C3 amended: in every reachable state, every label-to-object entry
agrees with the object-to-label map (hence each object is hit by at most
one label), but the converse can fail: an object-to-label entry may
dangle after its label is claimed by another registration. -/
theorem C3_label_invariant_amended (s : ObjectFactory)
    (h : Reachable s) :
    (∀ L o, mGet s.registeredObjects L = some o →
      mGet s.registeredIds o = some L)
    ∧ (∀ L1 L2 o, mGet s.registeredObjects L1 = some o →
        mGet s.registeredObjects L2 = some o → L1 = L2) := by
  have hi := reachable_regInv s h
  refine ⟨hi, fun L1 L2 o h1 h2 => ?_⟩
  have e1 := hi L1 o h1
  have e2 := hi L2 o h2
  exact Option.some.inj (e1.symm.trans e2)

/-- C3 amended witness: one honest registration is reachable and its
label-to-object entry is mirrored in the object-to-label map. -/
theorem C3_label_invariant_amended_witness :
    Reachable (ObjectFactory.init.register 1 (some "x")).2
    ∧ mGet (ObjectFactory.init.register 1
        (some "x")).2.registeredIds 1 = some "x" :=
  ⟨Reachable.register _ 1 (some "x") Reachable.init,
    (C3_label_invariant_amended _
      (Reachable.register _ 1 (some "x") Reachable.init)).1 "x" 1
      (by decide)⟩

end SpecRec
